import Mathlib

/-!
# Verification of the token-aware memory manager (deepthinks backend)

Shallow embedding of `flask_project/memory.py` (class `TokenAwareMemoryManager`,
class `Summarizer`) and `flask_project/routes/chat.py` (`count_tokens`).

Modelling conventions:
* Python `int` is `ℤ` (or `ℕ` for values that are lengths/counts by construction);
  Python `float` arithmetic is modelled exactly over `ℚ` (the configuration values
  0.8 and 0.9 and all derived quantities are exact rationals).
* Python's `/` raises `ZeroDivisionError` on a zero divisor; the embedding makes
  that explicit (an `Except`/error component) instead of Lean's `q / 0 = 0`.
* External effects (the summarization LLM call, the sqlite insert, `json.loads`
  of the summary string, the tiktoken encoder) are supplied as explicit oracle
  arguments describing the outcome of the call; the surrounding control flow
  (try/except, truthiness tests) is embedded faithfully from the source.
* A raised exception that propagates out of a method is modelled as a `some e`
  error component next to the state as mutated up to the raise point (Python
  mutations performed before the raise persist).
-/

set_option maxRecDepth 10000

namespace Deepthinks

/-- Python exceptions that can arise in the embedded code paths. -/
inductive PyErr
  | zeroDivisionError
  | attributeError
  | typeError
  deriving DecidableEq, Repr

/-- Memory configuration, read once from `current_app.config` in
`TokenAwareMemoryManager.__init__` (fields `tok_K`, `min_interactions`,
`max_interactions`, `smoothing_factor`, `safety_margin`). -/
structure Config where
  tok_K : ℚ
  min_interactions : ℕ
  max_interactions : ℕ
  smoothing_factor : ℚ
  safety_margin : ℚ
  deriving DecidableEq, Repr

/-- `self.adaptive_threshold = self.tok_K * self.safety_margin`. -/
def Config.adaptive_threshold (cfg : Config) : ℚ :=
  cfg.tok_K * cfg.safety_margin

/-- The repository's configuration (`config.py`): MAX_CONTEXT_TOKENS = 3000,
MIN_INTERACTIONS_BEFORE_SUMMARY = 2, MAX_INTERACTIONS_LIMIT = 50,
SMOOTHING_FACTOR = 0.8, SAFETY_MARGIN = 0.9. -/
def defaultConfig : Config :=
  { tok_K := 3000
    min_interactions := 2
    max_interactions := 50
    smoothing_factor := 4/5
    safety_margin := 9/10 }

/-- One element of `history_buffer`: the dict
`{"prompt": ..., "response": ..., "timestamp": ..., "token_count": ...}`.
`token_count` is `none` when the key is absent (rows persisted before token
tracking existed; `_load_from_db` reads them with `.get('token_count', 0)`). -/
structure Interaction where
  prompt : String
  response : String
  timestamp : String
  token_count : Option ℤ
  deriving DecidableEq, Repr

/-- The mutable per-session state of `TokenAwareMemoryManager`:
`summary_json` (a string or `None`), `history_buffer`, `token_buffer`. -/
structure MemState where
  summary_json : Option String
  history_buffer : List Interaction
  token_buffer : List ℤ
  deriving DecidableEq, Repr

deriving instance DecidableEq for Except

/-- Exponentiation on `ℚ` by a natural number, written out structurally so that
concrete instances compute by kernel reduction; models Python's `**` (the
float powers of `smoothing_factor` are exact powers of a rational here).
Agrees with `· ^ ·` (see `qpow_eq_pow`). -/
def qpow (q : ℚ) : ℕ → ℚ
  | 0 => 1
  | n + 1 => qpow q n * q

/-- Python truthiness of an optional string (`None` and `""` are falsy). -/
def pyTruthyStr : Option String → Bool
  | none => false
  | some s => !s.isEmpty

/-- Python `int(x)` on a float/rational: truncation toward zero. -/
def pyInt (q : ℚ) : ℤ :=
  if 0 ≤ q then ⌊q⌋ else -⌊-q⌋

/-- Python slice `l[:-k]` (for `k = 0` this is `l[:0] = []`). -/
def pySliceUpToNeg (k : ℕ) (l : List α) : List α :=
  l.take (if k = 0 then 0 else l.length - k)

/-- Python slice `l[-k:]` (for `k = 0` this is `l[0:] = l`). -/
def pySliceFromNeg (k : ℕ) (l : List α) : List α :=
  l.drop (if k = 0 then 0 else l.length - k)

/-- The exponentially smoothed average computed inside
`_calculate_dynamic_threshold` (the `avg_tokens` local variable), for a
non-empty `token_buffer`:
* length 1: `avg_tokens = self.token_buffer[0]`;
* otherwise weights `smoothing_factor ** (n - 1 - i)`, weighted sum over
  `zip(token_buffer, weights)`, and
  `avg_tokens = weighted_sum / weight_sum if weight_sum > 0 else token_buffer[-1]`. -/
def avg_tokens (cfg : Config) (tb : List ℤ) : ℚ :=
  if tb.length = 1 then ((tb.headD 0 : ℤ) : ℚ)
  else
    let n := tb.length
    let weights : List ℚ := (List.range n).map (fun i => qpow cfg.smoothing_factor (n - 1 - i))
    let weighted_sum : ℚ := ((tb.zip weights).map (fun p => (p.1 : ℚ) * p.2)).sum
    let weight_sum : ℚ := weights.sum
    if 0 < weight_sum then weighted_sum / weight_sum else ((tb.getLastD 0 : ℤ) : ℚ)

/-- `TokenAwareMemoryManager._calculate_dynamic_threshold` (memory.py).
Python raises `ZeroDivisionError` on `self.adaptive_threshold / avg_tokens`
when `avg_tokens == 0`; the embedding returns that as an explicit error.
`optimal_k = max(1, int(adaptive_threshold / avg_tokens))`;
`dynamic_k = max(min_interactions, min(max_interactions, optimal_k))`
(`optimal_k ≥ 1`, so representing the result as `ℕ` via `Int.toNat` is exact). -/
def calculate_dynamic_threshold (cfg : Config) (tb : List ℤ) : Except PyErr ℕ :=
  if tb.isEmpty then .ok cfg.min_interactions
  else
    let avg := avg_tokens cfg tb
    if avg = 0 then .error .zeroDivisionError
    else
      let optimal_k : ℤ := max 1 (pyInt (cfg.adaptive_threshold / avg))
      .ok (max cfg.min_interactions (min cfg.max_interactions optimal_k.toNat))

/-- `TokenAwareMemoryManager._should_trigger_summarization` (memory.py). -/
def should_trigger_summarization (cfg : Config) (st : MemState) : Bool :=
  if st.history_buffer.length < cfg.min_interactions then false
  else if cfg.adaptive_threshold ≤ ((st.token_buffer.sum : ℤ) : ℚ) then true
  else if cfg.max_interactions ≤ st.history_buffer.length then true
  else false

/-- `Summarizer.summarize` (memory.py). The external LLM call and the JSON
validation of its output are modelled by the `backend` oracle argument:
`some s` means the call returned content `s` that passed `json.loads`
validation; `none` means the call raised or the content failed validation,
in which case the `except` clause returns `previous_summary_json`.
An empty `conversation_log` returns `previous_summary_json` without calling
the backend. -/
def Summarizer.summarize (previous_summary_json : Option String)
    (conversation_log : List Interaction) (backend : Option String) : Option String :=
  if conversation_log.isEmpty then previous_summary_json
  else
    match backend with
    | some s => some s
    | none => previous_summary_json

/-- The four slices computed by `_adaptive_prune` before it calls the
summarizer. -/
structure PruneSlices where
  to_summarize : List Interaction
  to_summarize_tokens : List ℤ
  retained : List Interaction
  retained_tokens : List ℤ
  deriving DecidableEq, Repr

/-- The slicing step of `TokenAwareMemoryManager._adaptive_prune` (memory.py):
if `len(history_buffer) <= dynamic_k`, summarize the older half
(`split_point = max(1, len(history_buffer) // 2)`), else keep the last
`dynamic_k` interactions (negative-index slices `[:-dynamic_k]` / `[-dynamic_k:]`). -/
def prune_slices (st : MemState) (dynamic_k : ℕ) : PruneSlices :=
  if st.history_buffer.length ≤ dynamic_k then
    let split_point := max 1 (st.history_buffer.length / 2)
    { to_summarize := st.history_buffer.take split_point
      to_summarize_tokens := st.token_buffer.take split_point
      retained := st.history_buffer.drop split_point
      retained_tokens := st.token_buffer.drop split_point }
  else
    { to_summarize := pySliceUpToNeg dynamic_k st.history_buffer
      to_summarize_tokens := pySliceUpToNeg dynamic_k st.token_buffer
      retained := pySliceFromNeg dynamic_k st.history_buffer
      retained_tokens := pySliceFromNeg dynamic_k st.token_buffer }

/-- `TokenAwareMemoryManager._adaptive_prune` (memory.py). Returns the state
as left by the method together with an exception if one propagated out of it
(the `ZeroDivisionError` of `_calculate_dynamic_threshold` — raised before any
mutation). The buffers are replaced only under `if new_summary:`, i.e. only
when the value returned by `Summarizer.summarize` is a truthy (non-empty)
string. -/
def adaptive_prune (cfg : Config) (st : MemState) (backend : Option String) :
    MemState × Option PyErr :=
  match calculate_dynamic_threshold cfg st.token_buffer with
  | .error e => (st, some e)
  | .ok dynamic_k =>
    let sl := prune_slices st dynamic_k
    let new_summary := Summarizer.summarize st.summary_json sl.to_summarize backend
    if pyTruthyStr new_summary then
      ({ summary_json := new_summary
         history_buffer := sl.retained
         token_buffer := sl.retained_tokens }, none)
    else (st, none)

/-- Outcome of the sqlite INSERT attempted by `_log_interaction_to_db`. -/
inductive DbWriteOutcome
  | success
  | sqliteError
  deriving DecidableEq, Repr

/-- `TokenAwareMemoryManager._log_interaction_to_db` (memory.py): the INSERT
into `chat_history` is wrapped in `except sqlite3.Error`, which only logs; no
exception propagates either way. -/
def log_interaction_to_db : DbWriteOutcome → Option PyErr
  | .success => none
  | .sqliteError => none

/-- `TokenAwareMemoryManager.add_interaction` (memory.py): log to the durable
transcript (failure swallowed), append the interaction dict (with
`token_count = response_token_count`) to `history_buffer` and the count to
`token_buffer`, then run `_adaptive_prune` if `_should_trigger_summarization`.
`full_response_for_history` only changes the text stored in the transcript
row, not the in-memory state, and is therefore not a parameter here. -/
def add_interaction (cfg : Config) (st : MemState) (prompt response : String)
    (response_token_count : ℤ) (timestamp : String)
    (db : DbWriteOutcome) (backend : Option String) : MemState × Option PyErr :=
  match log_interaction_to_db db with
  | some e => (st, some e)
  | none =>
    let st1 : MemState :=
      { st with
        history_buffer := st.history_buffer ++
          [{ prompt := prompt, response := response, timestamp := timestamp,
             token_count := some response_token_count }]
        token_buffer := st.token_buffer ++ [response_token_count] }
    if should_trigger_summarization cfg st1 then adaptive_prune cfg st1 backend
    else (st1, none)

/-- `TokenAwareMemoryManager._load_from_db` (memory.py): the state after
loading a persisted row — `summary_json` as stored, `history_buffer` from the
stored JSON, and `token_buffer` rebuilt as
`[interaction.get('token_count', 0) for interaction in history_buffer]`.
A missing row or an empty stored buffer is the `hist = []` case. -/
def loaded_state (summary_json : Option String) (hist : List Interaction) : MemState :=
  { summary_json := summary_json
    history_buffer := hist
    token_buffer := hist.map (fun i => i.token_count.getD 0) }

/-- States of a session's memory reachable in one process: a freshly loaded
state followed by any sequence of `add_interaction` calls, with arbitrary
transcript-write and summarization outcomes. -/
inductive Reachable (cfg : Config) : MemState → Prop
  | loaded (summary_json : Option String) (hist : List Interaction) :
      Reachable cfg (loaded_state summary_json hist)
  | step {st : MemState} (prompt response timestamp : String) (tc : ℤ)
      (db : DbWriteOutcome) (backend : Option String) :
      Reachable cfg st →
      Reachable cfg (add_interaction cfg st prompt response tc timestamp db backend).1

/-- A Python value produced by `json.loads`. -/
inductive JVal
  | null
  | bool (b : Bool)
  | num (q : ℚ)
  | str (s : String)
  | arr (xs : List JVal)
  | obj (fields : List (String × JVal))

/-- Python truthiness of a JSON-decoded value (`[]`, `{}`, `""`, `0`, `None`,
`False` are falsy). -/
def jTruthy : JVal → Bool
  | .null => false
  | .bool b => b
  | .num q => decide (q ≠ 0)
  | .str s => !s.isEmpty
  | .arr xs => !xs.isEmpty
  | .obj fs => !fs.isEmpty

/-- Python `value.get(key, default)`: defined on dicts (`json.loads` keeps the
last of duplicate keys); on any non-dict value the attribute lookup `.get`
raises `AttributeError`. -/
def JVal.dictGet (v : JVal) (key : String) (default : JVal) : Except PyErr JVal :=
  match v with
  | .obj fields =>
    .ok ((((fields.filter (fun p => p.1 = key)).getLast?).map Prod.snd).getD default)
  | _ => .error .attributeError

/-- Python `sep.join(v)`: succeeds on an iterable of strings (a list of
strings, a string — iterated as its characters — or a dict — iterated as its
keys); raises `TypeError` on non-string elements or non-iterables. -/
def pyStrJoin (sep : String) (v : JVal) : Except PyErr String :=
  match v with
  | .arr xs => do
    let strs ← xs.mapM (fun x =>
      match x with
      | .str s => Except.ok s
      | _ => Except.error PyErr.typeError)
    Except.ok (String.intercalate sep strs)
  | .str s => Except.ok (String.intercalate sep (s.toList.map (fun c => String.mk [c])))
  | .obj fields => Except.ok (String.intercalate sep (fields.map Prod.fst))
  | _ => .error .typeError

/-- One element of the message list built by `get_context`. -/
structure Msg where
  role : String
  content : String
  deriving DecidableEq, Repr

/-- The body of the `try` block of `get_context` after `json.loads` succeeded
with value `summary_data`: build the system-message text from
`summary_data.get('interactions', [])` and
`summary_data.get('important_details', [])`. `dumps` models `json.dumps`
(total; its exact output never matters for the properties below). -/
def render_summary (dumps : JVal → String) (summary_data : JVal) : Except PyErr Msg := do
  let t0 := "Here is a summary of the conversation so far:\n"
  let interactions ← summary_data.dictGet "interactions" (.arr [])
  let details ← summary_data.dictGet "important_details" (.arr [])
  let t1 := if jTruthy interactions then
      t0 ++ "- Key topics discussed: " ++ dumps interactions ++ "\n"
    else t0
  let t2 ← if jTruthy details then
      (pyStrJoin ", " details).map
        (fun j => t1 ++ "- Important details to remember: " ++ j ++ "\n")
    else Except.ok t1
  Except.ok { role := "system", content := t2 }

/-- The loop at the end of `get_context`: one user message per non-empty
prompt and one assistant message per non-empty response, in buffer order. -/
def history_messages (hist : List Interaction) : List Msg :=
  (hist.map (fun i =>
    (if !i.prompt.isEmpty then [{ role := "user", content := i.prompt : Msg }] else []) ++
    (if !i.response.isEmpty then [{ role := "assistant", content := i.response : Msg }] else []))).flatten

/-- `TokenAwareMemoryManager.get_context` (memory.py). `loads` models the
outcome of `json.loads(self.summary_json)`: `none` means it raised
(`json.JSONDecodeError`, or `TypeError` — exactly the exceptions named in the
`except` clause, which logs a warning and omits the summary); `some v` means
it returned `v`. A `TypeError` raised later inside the `try` block (e.g. by
`', '.join`) is caught by the same clause; an `AttributeError` from `.get` on
a non-dict value is not caught and propagates. -/
def get_context (st : MemState) (loads : Option JVal) (dumps : JVal → String) :
    Except PyErr (List Msg) :=
  let tail := history_messages st.history_buffer
  if pyTruthyStr st.summary_json then
    match loads with
    | none => .ok tail
    | some v =>
      match render_summary dumps v with
      | .ok m => .ok (m :: tail)
      | .error .typeError => .ok tail
      | .error e => .error e
  else .ok tail

/-- The `text` argument of `count_tokens`: a string, or a value of any other
type (for which `not text or not isinstance(text, str)` is true). -/
inductive PyText
  | str (s : String)
  | nonString
  deriving DecidableEq, Repr

/-- `count_tokens` (routes/chat.py). `encode` models the tokenizer path
`len(get_tokenizer_for_model(model_name).encode(text))`: `some n` is a
successful count, `none` means that path raised, landing in the
`except` clause with the fallback `max(1, len(text) // 4)`. -/
def count_tokens (encode : Option ℕ) (text : PyText) : ℕ :=
  match text with
  | .nonString => 0
  | .str s =>
    if s.isEmpty then 0
    else
      match encode with
      | some n => n
      | none => max 1 (s.length / 4)

/-! ### Specification-side definitions (for refinement comparisons)

These two follow the wording of the spec (§4.4, "Dynamic retention size"),
to be compared against `calculate_dynamic_threshold` above. -/

/-- The spec's exponentially smoothed average token cost: the weight of the
`i`-th buffered interaction (0-indexed from the oldest) is
`smoothing_factor ^ (n - 1 - i)` with `n = len(token_buffer)`, and
`avg = Σ(token_i * weight_i) / Σ(weight_i)`. -/
def spec_avg (cfg : Config) (tb : List ℤ) : ℚ :=
  let n := tb.length
  let weights := (List.range n).map (fun i => qpow cfg.smoothing_factor (n - 1 - i))
  (List.zipWith (fun (t : ℤ) (w : ℚ) => (t : ℚ) * w) tb weights).sum / weights.sum

/-- The spec's dynamic retention size:
`clamp(max(1, floor(adaptive_threshold / avg)), min_interactions, max_interactions)`. -/
def spec_dynamic_k (cfg : Config) (tb : List ℤ) : ℕ :=
  let optimal_k : ℤ := max 1 ⌊cfg.adaptive_threshold / spec_avg cfg tb⌋
  max cfg.min_interactions (min cfg.max_interactions optimal_k.toNat)

/-! ### Concrete states used by the closed theorems below -/

/-- Pointwise coherence of the two buffers: `token_buffer` is exactly the
`token_count` column of `history_buffer` (missing values read as 0). -/
def token_coherent (st : MemState) : Prop :=
  st.token_buffer = st.history_buffer.map (fun i => i.token_count.getD 0)

/-- A state with a non-empty previous summary (the two-character string `{}`,
a well-formed prior summary blob) and two buffered interactions. -/
def c1_state : MemState :=
  { summary_json := some "\x7b\x7d"
    history_buffer :=
      [{ prompt := "q1", response := "a1", timestamp := "t1", token_count := some 10 },
       { prompt := "q2", response := "a2", timestamp := "t2", token_count := some 20 }]
    token_buffer := [10, 20] }

/-- A loaded state whose persisted rows all carry `token_count = 0`:
49 zero-token interactions (one below the default hard cap of 50). -/
def c3_state : MemState :=
  loaded_state none
    (List.replicate 49 { prompt := "p", response := "r", timestamp := "t", token_count := some 0 })

/-- A loaded state exercising a legacy row without a `token_count` key. -/
def c2_loaded : MemState :=
  loaded_state (some "s")
    [{ prompt := "p", response := "r", timestamp := "t", token_count := none }]

/-- One `add_interaction` step (with a failing transcript write) on top of
`c2_loaded`. -/
def c2_step : MemState :=
  (add_interaction defaultConfig c2_loaded "q" "a" 7 "u" .sqliteError none).1

/-- A two-interaction state over the trigger threshold (sum 3000 ≥ 2700). -/
def c4_state : MemState :=
  { summary_json := none
    history_buffer :=
      [{ prompt := "w1", response := "v1", timestamp := "u1", token_count := some 2000 },
       { prompt := "w2", response := "v2", timestamp := "u2", token_count := some 1000 }]
    token_buffer := [2000, 1000] }

/-- A three-interaction state for the pruning-slice properties. -/
def c6_state : MemState :=
  { summary_json := none
    history_buffer :=
      [{ prompt := "x1", response := "y1", timestamp := "s1", token_count := some 40 },
       { prompt := "x2", response := "y2", timestamp := "s2", token_count := some 40 },
       { prompt := "x3", response := "y3", timestamp := "s3", token_count := some 40 }]
    token_buffer := [40, 40, 40] }

/-- A state whose persisted summary is the string `[]`: valid JSON, but a
JSON array rather than the expected object. -/
def c7_counter_state : MemState :=
  { summary_json := some "[]"
    history_buffer := [{ prompt := "hi", response := "yo", timestamp := "t", token_count := some 1 }]
    token_buffer := [1] }

/-- Another state with a summary string present (used by the C7 witness). -/
def c7_state : MemState :=
  { summary_json := some "[]", history_buffer := [], token_buffer := [] }

/-- The configuration of the spec's scenario 7:
`{min=2, max=50, margin=0.9, max_tokens=100}`. -/
def c8cfg : Config :=
  { tok_K := 100
    min_interactions := 2
    max_interactions := 50
    smoothing_factor := 4/5
    safety_margin := 9/10 }

/-- Scenario steps: three `add_interaction` calls of 40 tokens each, with a
succeeding summarizer (backend returns the validated string `"S"`). -/
def c8_r1 : MemState × Option PyErr :=
  add_interaction c8cfg { summary_json := none, history_buffer := [], token_buffer := [] }
    "p1" "r1" 40 "t1" .success (some "S")

def c8_r2 : MemState × Option PyErr :=
  add_interaction c8cfg c8_r1.1 "p2" "r2" 40 "t2" .success (some "S")

def c8_r3 : MemState × Option PyErr :=
  add_interaction c8cfg c8_r2.1 "p3" "r3" 40 "t3" .success (some "S")

/-! ## Helper lemmas -/

theorem qpow_eq_pow (q : ℚ) (n : ℕ) : qpow q n = q ^ n := by
  induction n with
  | zero => rfl
  | succ n ih => rw [qpow, ih, pow_succ]

theorem qpow_pos {q : ℚ} (hq : 0 < q) (n : ℕ) : 0 < qpow q n := by
  rw [qpow_eq_pow]; exact pow_pos hq n

theorem map_zip_eq_zipWith (f : α → β → γ) :
    ∀ (l₁ : List α) (l₂ : List β),
      (l₁.zip l₂).map (fun p => f p.1 p.2) = List.zipWith f l₁ l₂
  | [], _ => by simp
  | _ :: _, [] => by simp
  | a :: l₁, b :: l₂ => by
    simp only [List.zip_cons_cons, List.map_cons, List.zipWith_cons_cons]
    rw [map_zip_eq_zipWith f l₁ l₂]

/-- Pointwise buffer coherence is preserved by the pruning routine
(both buffers are sliced at the same place, or left untouched). -/
theorem adaptive_prune_coherent (cfg : Config) (st : MemState) (backend : Option String)
    (h : token_coherent st) : token_coherent (adaptive_prune cfg st backend).1 := by
  unfold adaptive_prune
  cases hcalc : calculate_dynamic_threshold cfg st.token_buffer with
  | error e => exact h
  | ok dynamic_k =>
    simp only
    split
    · unfold token_coherent at h ⊢
      unfold prune_slices
      have hlen : st.token_buffer.length = st.history_buffer.length := by
        rw [h, List.length_map]
      split
      · simp only [h, List.map_drop]
      · simp only [pySliceFromNeg, h, List.map_drop, List.length_map]
    · exact h

/-- Pointwise buffer coherence is preserved by `add_interaction`. -/
theorem add_interaction_coherent (cfg : Config) (st : MemState)
    (prompt response timestamp : String) (tc : ℤ)
    (db : DbWriteOutcome) (backend : Option String) (h : token_coherent st) :
    token_coherent (add_interaction cfg st prompt response tc timestamp db backend).1 := by
  unfold add_interaction
  cases db with
  | success =>
    simp only [log_interaction_to_db]
    split
    · exact adaptive_prune_coherent cfg _ backend (by
        unfold token_coherent at h ⊢
        simp [h])
    · unfold token_coherent at h ⊢
      simp [h]
  | sqliteError =>
    simp only [log_interaction_to_db]
    split
    · exact adaptive_prune_coherent cfg _ backend (by
        unfold token_coherent at h ⊢
        simp [h])
    · unfold token_coherent at h ⊢
      simp [h]

/-- Every reachable state is pointwise coherent. -/
theorem reachable_token_coherent (cfg : Config) (st : MemState)
    (h : Reachable cfg st) : token_coherent st := by
  induction h with
  | loaded summary_json hist => rfl
  | step prompt response timestamp tc db backend _ ih =>
    exact add_interaction_coherent cfg _ prompt response timestamp tc db backend ih

/-- A successfully computed dynamic retention size is at least
`min_interactions` (it is `max(min_interactions, ...)` or, for an empty
buffer, `min_interactions` itself). -/
theorem calculate_dynamic_threshold_ge_min {cfg : Config} {tb : List ℤ} {k : ℕ}
    (h : calculate_dynamic_threshold cfg tb = .ok k) : cfg.min_interactions ≤ k := by
  unfold calculate_dynamic_threshold at h
  split at h
  · cases h; exact le_refl _
  · dsimp only at h
    split at h
    · cases h
    · cases h; exact le_max_left _ _

/-! ## Claim theorems -/

/-- C1: evaluation of `_adaptive_prune` at a failing input for the claim
"a failed summarization is a complete no-op". Pre-state: a non-empty previous
summary and two buffered interactions; the summarization backend fails
(`backend = none`, i.e. the LLM call raised or its output failed validation).
`Summarizer.summarize` then returns the previous summary string, which is
truthy, so `_adaptive_prune` takes its success branch: no exception is
raised, `summary_json` is unchanged, but `history_buffer` and `token_buffer`
are pruned — the interactions handed to the failed summarization are dropped
from memory. -/
theorem failed_summarization_prunes_buffers :
    (adaptive_prune defaultConfig c1_state none).2 = none ∧
    (adaptive_prune defaultConfig c1_state none).1.summary_json = c1_state.summary_json ∧
    (adaptive_prune defaultConfig c1_state none).1.history_buffer =
      [{ prompt := "q2", response := "a2", timestamp := "t2", token_count := some 20 }] ∧
    (adaptive_prune defaultConfig c1_state none).1.history_buffer ≠ c1_state.history_buffer ∧
    (adaptive_prune defaultConfig c1_state none).1.token_buffer ≠ c1_state.token_buffer := by
  with_unfolding_all decide

/-- C3: evaluation of the pruning path at the pathological input the hard cap
protects against. Starting from 49 buffered zero-token interactions, adding a
50th zero-token interaction makes the trigger predicate fire (the
`max_interactions_limit` safety net), but `_calculate_dynamic_threshold` then
computes `avg_tokens = 0` and `adaptive_threshold / avg_tokens` raises
`ZeroDivisionError`, which propagates out of `add_interaction`. -/
theorem zero_token_pruning_raises :
    should_trigger_summarization defaultConfig
      (add_interaction defaultConfig c3_state "p" "r" 0 "t" .success none).1 = true ∧
    (add_interaction defaultConfig c3_state "p" "r" 0 "t" .success none).1.history_buffer.length
      = 50 ∧
    (add_interaction defaultConfig c3_state "p" "r" 0 "t" .success none).2
      = some .zeroDivisionError := by
  with_unfolding_all decide

/-- C8: the spec's scenario 7, executed end to end. With config
`{max_tokens=100, min=2, max=50, smoothing=0.8, margin=0.9}` (threshold 90)
and token costs 40, 40, 40: the first two calls only append (no pruning, sum
80 < 90); the third fires the trigger (sum 120 ≥ 90), `dynamic_k = 2`
(smoothed average 40, `floor(90/40) = 2`, clamped to `[2,50]`), the standard
branch summarizes exactly the first interaction, and afterwards the buffers
hold exactly the last two interactions with `token_buffer = [40, 40]`. -/
theorem c8_scenario_spec :
    c8_r1.1 = { summary_json := none
                history_buffer :=
                  [{ prompt := "p1", response := "r1", timestamp := "t1", token_count := some 40 }]
                token_buffer := [40] } ∧
    c8_r1.2 = none ∧
    c8_r2.1 = { summary_json := none
                history_buffer :=
                  [{ prompt := "p1", response := "r1", timestamp := "t1", token_count := some 40 },
                   { prompt := "p2", response := "r2", timestamp := "t2", token_count := some 40 }]
                token_buffer := [40, 40] } ∧
    c8_r2.2 = none ∧
    should_trigger_summarization c8cfg c8_r2.1 = false ∧
    should_trigger_summarization c8cfg
      { summary_json := none
        history_buffer :=
          [{ prompt := "p1", response := "r1", timestamp := "t1", token_count := some 40 },
           { prompt := "p2", response := "r2", timestamp := "t2", token_count := some 40 },
           { prompt := "p3", response := "r3", timestamp := "t3", token_count := some 40 }]
        token_buffer := [40, 40, 40] } = true ∧
    calculate_dynamic_threshold c8cfg [40, 40, 40] = .ok 2 ∧
    (prune_slices
      { summary_json := none
        history_buffer :=
          [{ prompt := "p1", response := "r1", timestamp := "t1", token_count := some 40 },
           { prompt := "p2", response := "r2", timestamp := "t2", token_count := some 40 },
           { prompt := "p3", response := "r3", timestamp := "t3", token_count := some 40 }]
        token_buffer := [40, 40, 40] } 2).to_summarize =
      [{ prompt := "p1", response := "r1", timestamp := "t1", token_count := some 40 }] ∧
    c8_r3.1 = { summary_json := some "S"
                history_buffer :=
                  [{ prompt := "p2", response := "r2", timestamp := "t2", token_count := some 40 },
                   { prompt := "p3", response := "r3", timestamp := "t3", token_count := some 40 }]
                token_buffer := [40, 40] } ∧
    c8_r3.2 = none := by
  with_unfolding_all decide

/-- C9: `count_tokens` returns 0 for non-string and empty inputs; for a
string it returns a natural number (hence non-negative, and the embedding is
total — no exception escapes the method's `try`/`except`); whenever the
tokenizer path fails it returns the deterministic fallback
`max(1, len(text) // 4)`. -/
theorem count_tokens_spec (encode : Option ℕ) (s : String) :
    count_tokens encode .nonString = 0 ∧
    count_tokens encode (.str "") = 0 ∧
    (s ≠ "" → count_tokens none (.str s) = max 1 (s.length / 4)) ∧
    0 ≤ count_tokens encode (.str s) := by
  refine ⟨rfl, rfl, ?_, Nat.zero_le _⟩
  intro h
  have hs : s.isEmpty = false := by
    cases he : s.isEmpty
    · rfl
    · exact absurd ((String.isEmpty_iff s).mp he) h
  simp [count_tokens, hs]

/-- C9 witness: the fallback at a concrete non-empty string. -/
theorem count_tokens_spec_witness :
    "hello" ≠ "" ∧ count_tokens none (.str "hello") = max 1 ("hello".length / 4) :=
  ⟨by decide, (count_tokens_spec none "hello").2.2.1 (by decide)⟩

/-- C10: a transcript-write failure (a `sqlite3.Error` raised by the INSERT
in `_log_interaction_to_db`) is swallowed: `add_interaction` produces exactly
the same state and exception outcome as with a successful write, and in
either case it still appends to both buffers and still evaluates the trigger
predicate (second conjunct: the result is the append-then-maybe-prune
pipeline, independent of the transcript write). -/
theorem add_interaction_db_failure_transparent (cfg : Config) (st : MemState)
    (prompt response timestamp : String) (tc : ℤ) (backend : Option String) :
    add_interaction cfg st prompt response tc timestamp .sqliteError backend =
      add_interaction cfg st prompt response tc timestamp .success backend ∧
    add_interaction cfg st prompt response tc timestamp .sqliteError backend =
      (let st1 : MemState :=
        { st with
          history_buffer := st.history_buffer ++
            [{ prompt := prompt, response := response, timestamp := timestamp,
               token_count := some tc }]
          token_buffer := st.token_buffer ++ [tc] }
       if should_trigger_summarization cfg st1 then adaptive_prune cfg st1 backend
       else (st1, none)) :=
  ⟨rfl, rfl⟩

/-- C2: in every state reachable from a freshly loaded state by any sequence
of `add_interaction` calls (with transcript writes and summarizations
succeeding or failing arbitrarily), the two buffers have equal length and
`sum(token_buffer)` equals the sum of the `token_count` fields over
`history_buffer` (missing values read as 0). -/
theorem reachable_buffer_invariant (cfg : Config) (st : MemState) (h : Reachable cfg st) :
    st.token_buffer.length = st.history_buffer.length ∧
    st.token_buffer.sum = (st.history_buffer.map (fun i => i.token_count.getD 0)).sum := by
  have hc := reachable_token_coherent cfg st h
  unfold token_coherent at hc
  exact ⟨by rw [hc, List.length_map], by rw [hc]⟩

/-- C2 witness: the invariant at the state reached by loading a legacy row
(without a `token_count` key) and one `add_interaction` step whose transcript
write fails. -/
theorem reachable_buffer_invariant_witness :
    c2_step.token_buffer.length = c2_step.history_buffer.length ∧
    c2_step.token_buffer.sum = (c2_step.history_buffer.map (fun i => i.token_count.getD 0)).sum :=
  reachable_buffer_invariant defaultConfig c2_step
    (Reachable.step "q" "a" "u" 7 .sqliteError none
      (Reachable.loaded (some "s")
        [{ prompt := "p", response := "r", timestamp := "t", token_count := none }]))

/-- C4: the trigger predicate returns false whenever the buffer is shorter
than `min_interactions_before_summary`; otherwise it returns true iff the
token sum reaches `adaptive_threshold = max_context_tokens * safety_margin`
or the buffer length has reached `max_interactions_limit`. -/
theorem should_trigger_summarization_spec (cfg : Config) (st : MemState) :
    (st.history_buffer.length < cfg.min_interactions →
      should_trigger_summarization cfg st = false) ∧
    (cfg.min_interactions ≤ st.history_buffer.length →
      (should_trigger_summarization cfg st = true ↔
        (cfg.tok_K * cfg.safety_margin ≤ ((st.token_buffer.sum : ℤ) : ℚ) ∨
          cfg.max_interactions ≤ st.history_buffer.length))) := by
  constructor
  · intro h
    unfold should_trigger_summarization
    rw [if_pos h]
  · intro h
    unfold should_trigger_summarization Config.adaptive_threshold
    rw [if_neg (Nat.not_lt.mpr h)]
    split_ifs with h1 h2
    · exact iff_of_true rfl (Or.inl h1)
    · exact iff_of_true rfl (Or.inr h2)
    · exact iff_of_false (by simp) (fun hab => hab.elim h1 h2)

/-- C4 witness: the trigger fires at a concrete two-interaction state whose
token sum 3000 exceeds the default threshold 2700. -/
theorem should_trigger_summarization_spec_witness :
    defaultConfig.min_interactions ≤ c4_state.history_buffer.length ∧
    (should_trigger_summarization defaultConfig c4_state = true ↔
      (defaultConfig.tok_K * defaultConfig.safety_margin ≤ ((c4_state.token_buffer.sum : ℤ) : ℚ) ∨
        defaultConfig.max_interactions ≤ c4_state.history_buffer.length)) :=
  ⟨by decide, (should_trigger_summarization_spec defaultConfig c4_state).2 (by decide)⟩

/-- C7 (amended): if `json.loads` on the stored summary string raises a
decode error, `get_context` does not raise and returns exactly the
user/assistant messages derived from `history_buffer`, as if no summary were
present; but if the string parses to a JSON value that is not an object
(e.g. a JSON array), the `.get` attribute lookup raises `AttributeError`,
which the `except (json.JSONDecodeError, TypeError)` clause does not catch,
and `get_context` raises. -/
theorem get_context_decode_failure_spec (st : MemState) (dumps : JVal → String)
    (v : JVal) (hv : ∀ fields, v ≠ JVal.obj fields) :
    get_context st none dumps = .ok (history_messages st.history_buffer) ∧
    (pyTruthyStr st.summary_json = true →
      get_context st (some v) dumps = .error .attributeError) := by
  constructor
  · unfold get_context
    split <;> rfl
  · intro h
    unfold get_context
    rw [if_pos h]
    cases v with
    | obj fields => exact absurd rfl (hv fields)
    | null => rfl
    | bool b => rfl
    | num q => rfl
    | str s => rfl
    | arr xs => rfl

/-- C7 witness: a state whose stored summary is the string `[]` with an empty
buffer; `json.loads("[]")` returns the empty JSON array, and `get_context`
raises `AttributeError`. -/
theorem get_context_decode_failure_spec_witness :
    get_context c7_state (some (JVal.arr [])) (fun _ => "") = .error .attributeError :=
  (get_context_decode_failure_spec c7_state (fun _ => "") (JVal.arr [])
    (fun _ h => JVal.noConfusion h)).2 (by decide)

/-- C7 counterexample to the claim as stated: the stored summary string `[]`
is valid JSON but not the expected object; `json.loads("[]")` succeeds with
the empty JSON array, and `get_context` raises `AttributeError` instead of
returning the history-derived messages. -/
theorem get_context_array_summary_raises :
    get_context c7_counter_state (some (JVal.arr [])) (fun _ => "") = .error .attributeError ∧
    (Except.error PyErr.attributeError : Except PyErr (List Msg)) ≠
      .ok (history_messages c7_counter_state.history_buffer) :=
  ⟨rfl, by decide⟩

/-- The weight list of the smoothed average has positive sum (the most recent
weight is `smoothing_factor ^ 0 = 1`, and all weights are positive powers). -/
theorem weights_sum_pos (cfg : Config) (hsf : 0 < cfg.smoothing_factor) {n : ℕ} (hn : 0 < n) :
    0 < ((List.range n).map (fun i => qpow cfg.smoothing_factor (n - 1 - i))).sum := by
  apply List.sum_pos
  · intro x hx
    obtain ⟨i, _, rfl⟩ := List.mem_map.mp hx
    exact qpow_pos hsf _
  · intro hc
    rw [List.map_eq_nil_iff, List.range_eq_nil] at hc
    omega

/-- The `avg_tokens` value computed by the source agrees with the spec's
smoothed-average formula on every non-empty buffer (the `n == 1` special
case included), provided the smoothing factor is positive. -/
theorem avg_tokens_eq_spec_avg (cfg : Config) (tb : List ℤ)
    (hne : tb ≠ []) (hsf : 0 < cfg.smoothing_factor) :
    avg_tokens cfg tb = spec_avg cfg tb := by
  unfold avg_tokens spec_avg
  by_cases h1 : tb.length = 1
  · rw [if_pos h1]
    obtain ⟨t, rfl⟩ : ∃ t, tb = [t] := by
      cases tb with
      | nil => exact absurd rfl hne
      | cons a l =>
        cases l with
        | nil => exact ⟨a, rfl⟩
        | cons b l' => simp at h1
    simp [qpow]
  · rw [if_neg h1]
    dsimp only
    rw [if_pos (weights_sum_pos cfg hsf (by
      have := List.length_pos.mpr hne
      omega))]
    rw [← map_zip_eq_zipWith]

/-- The spec's smoothed average is non-negative whenever all token counts
are non-negative. -/
theorem spec_avg_nonneg (cfg : Config) (tb : List ℤ)
    (hsf : 0 < cfg.smoothing_factor) (htok : ∀ t ∈ tb, (0:ℤ) ≤ t) :
    0 ≤ spec_avg cfg tb := by
  unfold spec_avg
  apply div_nonneg
  · rw [← map_zip_eq_zipWith]
    apply List.sum_nonneg
    intro x hx
    obtain ⟨⟨t, w⟩, hp, rfl⟩ := List.mem_map.mp hx
    have h1 := (List.of_mem_zip hp).1
    have h2 := (List.of_mem_zip hp).2
    obtain ⟨i, _, rfl⟩ := List.mem_map.mp h2
    exact mul_nonneg (by exact_mod_cast htok _ h1) (le_of_lt (qpow_pos hsf _))
  · by_cases hn : tb.length = 0
    · simp [hn]
    · exact le_of_lt (weights_sum_pos cfg hsf (by omega))

/-- C5 (amended): `_calculate_dynamic_threshold` returns `min_interactions`
on an empty `token_buffer`; on every non-empty `token_buffer` of
non-negative token counts whose smoothed average is non-zero, it returns
`clamp(max(1, floor(adaptive_threshold / avg)), min_interactions,
max_interactions)` with `avg` the exponentially smoothed average of the
spec (weight `smoothing_factor^(n-1-i)` for the `i`-th-oldest entry); the
`n == 1` special case agrees with the general formula. (When the smoothed
average is zero — e.g. an all-zero buffer — the division raises instead of
returning; see the counterexample.) -/
theorem calculate_dynamic_threshold_spec (cfg : Config) (tb : List ℤ)
    (hsf : 0 < cfg.smoothing_factor) (hthr : 0 ≤ cfg.adaptive_threshold)
    (htok : ∀ t ∈ tb, (0:ℤ) ≤ t) (hne : tb ≠ []) (havg : spec_avg cfg tb ≠ 0) :
    calculate_dynamic_threshold cfg [] = .ok cfg.min_interactions ∧
    calculate_dynamic_threshold cfg tb = .ok (spec_dynamic_k cfg tb) := by
  refine ⟨rfl, ?_⟩
  have heq := avg_tokens_eq_spec_avg cfg tb hne hsf
  have hnn := spec_avg_nonneg cfg tb hsf htok
  unfold calculate_dynamic_threshold
  rw [if_neg (by simpa [List.isEmpty_iff] using hne)]
  dsimp only
  rw [heq, if_neg havg]
  have hfloor : pyInt (cfg.adaptive_threshold / spec_avg cfg tb) =
      ⌊cfg.adaptive_threshold / spec_avg cfg tb⌋ := by
    unfold pyInt
    rw [if_pos (div_nonneg hthr hnn)]
  rw [hfloor]
  rfl

/-- C5 counterexample to the claim as stated: on the non-empty buffer `[0]`
the code does not return the clamped value at all — the smoothed average is
0 and `adaptive_threshold / avg_tokens` raises `ZeroDivisionError`. -/
theorem calculate_dynamic_threshold_zero_raises :
    calculate_dynamic_threshold defaultConfig [0] = .error .zeroDivisionError := by
  with_unfolding_all decide

/-- C5 witness: the amended statement evaluated on the buffer `[40, 40, 40]`
over the default configuration. -/
theorem calculate_dynamic_threshold_spec_witness :
    (0:ℚ) < defaultConfig.smoothing_factor ∧ spec_avg defaultConfig [40, 40, 40] ≠ 0 ∧
    calculate_dynamic_threshold defaultConfig [40, 40, 40] =
      .ok (spec_dynamic_k defaultConfig [40, 40, 40]) :=
  ⟨by with_unfolding_all decide, by with_unfolding_all decide,
   (calculate_dynamic_threshold_spec defaultConfig [40, 40, 40]
      (by with_unfolding_all decide) (by with_unfolding_all decide) (by decide) (by decide)
      (by with_unfolding_all decide)).2⟩

/-- C6: for every invocation of the pruning split on a non-empty buffer with
equal buffer lengths and a successfully computed `dynamic_k` (which is at
least `min_interactions ≥ 1`): if `n ≤ dynamic_k` the older half
`[0 : max(1, n // 2))` is summarized, otherwise everything except the most
recent `dynamic_k` entries; in both branches the two parts partition the
buffer, `to_summarize` is non-empty, and `token_buffer` is split at the same
index as `history_buffer`. -/
theorem adaptive_prune_slices_spec (cfg : Config) (st : MemState) (dynamic_k : ℕ)
    (hmin : 1 ≤ cfg.min_interactions)
    (hlen : st.token_buffer.length = st.history_buffer.length)
    (hne : st.history_buffer ≠ [])
    (hk : calculate_dynamic_threshold cfg st.token_buffer = .ok dynamic_k) :
    (st.history_buffer.length ≤ dynamic_k →
      prune_slices st dynamic_k =
        { to_summarize := st.history_buffer.take (max 1 (st.history_buffer.length / 2))
          to_summarize_tokens := st.token_buffer.take (max 1 (st.history_buffer.length / 2))
          retained := st.history_buffer.drop (max 1 (st.history_buffer.length / 2))
          retained_tokens := st.token_buffer.drop (max 1 (st.history_buffer.length / 2)) }) ∧
    (dynamic_k < st.history_buffer.length →
      prune_slices st dynamic_k =
        { to_summarize := st.history_buffer.take (st.history_buffer.length - dynamic_k)
          to_summarize_tokens := st.token_buffer.take (st.history_buffer.length - dynamic_k)
          retained := st.history_buffer.drop (st.history_buffer.length - dynamic_k)
          retained_tokens := st.token_buffer.drop (st.history_buffer.length - dynamic_k) }) ∧
    (prune_slices st dynamic_k).to_summarize.length +
      (prune_slices st dynamic_k).retained.length = st.history_buffer.length ∧
    (prune_slices st dynamic_k).to_summarize ≠ [] := by
  have hk1 : 1 ≤ dynamic_k := le_trans hmin (calculate_dynamic_threshold_ge_min hk)
  have hkne : dynamic_k ≠ 0 := by omega
  have hnpos : 0 < st.history_buffer.length := List.length_pos.mpr hne
  refine ⟨?_, ?_, ?_, ?_⟩
  · intro h
    unfold prune_slices
    rw [if_pos h]
  · intro h
    unfold prune_slices
    rw [if_neg (Nat.not_le.mpr h)]
    unfold pySliceUpToNeg pySliceFromNeg
    simp only [if_neg hkne, hlen]
  · unfold prune_slices
    by_cases h : st.history_buffer.length ≤ dynamic_k
    · rw [if_pos h]
      simp only [List.length_take, List.length_drop]
      omega
    · rw [if_neg h]
      unfold pySliceUpToNeg pySliceFromNeg
      simp only [if_neg hkne, List.length_take, List.length_drop]
      omega
  · unfold prune_slices
    by_cases h : st.history_buffer.length ≤ dynamic_k
    · rw [if_pos h]
      apply List.length_pos.mp
      rw [List.length_take]
      omega
    · rw [if_neg h]
      unfold pySliceUpToNeg
      apply List.length_pos.mp
      simp only [if_neg hkne, List.length_take]
      omega

/-- C6 witness: the partition and progress facts at a concrete
three-interaction state with `dynamic_k = 50`. -/
theorem adaptive_prune_slices_spec_witness :
    (prune_slices c6_state 50).to_summarize.length +
      (prune_slices c6_state 50).retained.length = c6_state.history_buffer.length ∧
    (prune_slices c6_state 50).to_summarize ≠ [] :=
  ⟨(adaptive_prune_slices_spec defaultConfig c6_state 50 (by decide) (by decide) (by decide)
      (by with_unfolding_all decide)).2.2.1,
   (adaptive_prune_slices_spec defaultConfig c6_state 50 (by decide) (by decide) (by decide)
      (by with_unfolding_all decide)).2.2.2⟩

end Deepthinks
